import Mathlib

/-!
Verification of the two deserialization helpers of `serde-aux`
(`src/lib.rs`): `deserialize_string_from_number` and
`deserialize_number_from_string`.

The structured input value (a serde_json-like wire value) is modelled by
`JsonValue`.  A deserialization error (`D::Error`) is modelled by `DeError`:
serde's untagged-enum failure ("data did not match any variant") is the
structural-mismatch channel, and `serde::de::Error::custom` carries the
`Display` rendering of a downstream parse error.

A caller-supplied target type `T` with bounds `FromStr + Deserialize` is
modelled by `TImpl α`: `fromStr` is `T::from_str` with its error already
rendered through `Display` (the only use the code makes of the error), and
`deserializeNative` is `T::deserialize` on a wire value (`none` = the value's
shape is rejected).
-/

/-- A structured (JSON-like) wire value.  Floats are carried exactly as
rationals; their payload is irrelevant to the two functions under study. -/
inductive JsonValue where
  | null
  | bool (b : Bool)
  | int (n : Int)
  | float (q : Rat)
  | str (s : String)
  | arr (elems : List JsonValue)
  | obj (fields : List (String × JsonValue))

/-- The deserializer error type `D::Error`, restricted to the two channels the
code exercises: the untagged enum's no-variant-matched failure, and
`serde::de::Error::custom` with a message. -/
inductive DeError where
  | structuralMismatch
  | custom (msg : String)
deriving DecidableEq

/-- `String::deserialize` on a wire value: succeeds exactly on text. -/
def string_from_json : JsonValue → Option String
  | .str s => some s
  | _ => none

/-- Rust's `i64` bounds. -/
def i64Min : Int := -9223372036854775808

/-- Rust's `i64` upper bound. -/
def i64Max : Int := 9223372036854775807

/-- `i64::deserialize` on a wire value: succeeds exactly on an integer literal
within the `i64` range. -/
def i64_from_json : JsonValue → Option Int
  | .int n => if i64Min ≤ n ∧ n ≤ i64Max then some n else none
  | _ => none

/-! ### Canonical decimal rendering (`i64::to_string`) -/

/-- Most-significant-first decimal digits of `n`, with a fuel argument that
dominates `n` (each step divides by 10, so `n + 1` steps always suffice). -/
def decDigitsAux : Nat → Nat → List Nat
  | 0, _ => []
  | fuel + 1, n => if n < 10 then [n] else decDigitsAux fuel (n / 10) ++ [n % 10]

/-- The character for a single decimal digit value. -/
def digitCharOf (d : Nat) : Char := Char.ofNat (48 + d)

/-- Decimal digit characters of a natural number, most significant first. -/
def decDigits (n : Nat) : List Char := (decDigitsAux (n + 1) n).map digitCharOf

/-- `i64::to_string`: canonical base-10 rendering, `-` prefix iff negative. -/
def i64_to_string (n : Int) : String :=
  if n < 0 then String.mk ('-' :: decDigits n.natAbs) else String.mk (decDigits n.natAbs)

/-- The numeric value of a most-significant-first digit list. -/
def valOfDigits (l : List Nat) : Nat := l.foldl (fun a d => 10 * a + d) 0

/-- The numeric value of a most-significant-first digit-character list. -/
def valOfChars (l : List Char) : Nat := l.foldl (fun a c => 10 * a + (c.toNat - 48)) 0

/-! ### `deserialize_string_from_number` (src/lib.rs lines 128-143) -/

/-- The untagged helper enum `StringOrInt` of `deserialize_string_from_number`. -/
inductive StringOrInt where
  | string (s : String)
  | number (n : Int)

/-- Untagged deserialization of `StringOrInt`: serde tries the variants in
declaration order — `String(String)` first, then `Number(i64)` — and fails
with the no-variant-matched error when both reject the value's shape. -/
def StringOrInt_deserialize (v : JsonValue) : Except DeError StringOrInt :=
  match string_from_json v with
  | some s => .ok (.string s)
  | none =>
    match i64_from_json v with
    | some n => .ok (.number n)
    | none => .error .structuralMismatch

/-- `deserialize_string_from_number`: deserialize `StringOrInt`, return the
text unchanged or the integer rendered with `to_string`. -/
def deserialize_string_from_number (v : JsonValue) : Except DeError String :=
  match StringOrInt_deserialize v with
  | .error e => .error e
  | .ok (.string s) => .ok s
  | .ok (.number i) => .ok (i64_to_string i)

/-! ### `deserialize_number_from_string` (src/lib.rs lines 201-218) -/

/-- The capabilities of the target type `T`: `FromStr` (error already rendered
through `Display`, the only use made of it) and native `Deserialize`. -/
structure TImpl (α : Type) where
  fromStr : String → Except String α
  deserializeNative : JsonValue → Option α

/-- The untagged helper enum `StringOrInt<T>` of `deserialize_number_from_string`. -/
inductive StringOrIntT (α : Type) where
  | string (s : String)
  | number (t : α)

/-- Untagged deserialization of `StringOrInt<T>`: the `String(String)` variant
is tried first, then `Number(T)` via `T`'s own deserialization; if both reject
the shape, the untagged no-variant-matched error is raised. -/
def StringOrIntT_deserialize (T : TImpl α) (v : JsonValue) :
    Except DeError (StringOrIntT α) :=
  match string_from_json v with
  | some s => .ok (.string s)
  | none =>
    match T.deserializeNative v with
    | some t => .ok (.number t)
    | none => .error .structuralMismatch

/-- `deserialize_number_from_string`: deserialize `StringOrInt<T>`; a string is
parsed with `T::from_str` (failure mapped through `Error::custom`), a native
`T` value is returned unchanged. -/
def deserialize_number_from_string (T : TImpl α) (v : JsonValue) :
    Except DeError α :=
  match StringOrIntT_deserialize T v with
  | .error e => .error e
  | .ok (.string s) =>
    match T.fromStr s with
    | .ok t => .ok t
    | .error e => .error (.custom e)
  | .ok (.number t) => .ok t

/-- Modelled from the spec (section 9, untagged-union-based classification):
the same coercion with the two classification branches attempted in the
OPPOSITE order — native `T` shape first, text second.  This definition exists
only to be compared with `deserialize_number_from_string`; it corresponds to
no code in the repository. -/
def deserialize_number_from_string_swapped (T : TImpl α) (v : JsonValue) :
    Except DeError α :=
  match T.deserializeNative v with
  | some t => .ok t
  | none =>
    match string_from_json v with
    | some s =>
      match T.fromStr s with
      | .ok t => .ok t
      | .error e => .error (.custom e)
    | none => .error .structuralMismatch

/-! ### Concrete target-type instances, used to instantiate theorems -/

/-- `u64::from_str`: optional leading `+`, then decimal digits only, rejecting
the empty string, any non-digit, and values past `u64::MAX`; error messages
are the `Display` renderings of `std::num::ParseIntError`. -/
def u64FromStr (s : String) : Except String Nat :=
  if s.data = [] then .error "cannot parse integer from empty string"
  else
    let ds := match s.data with
      | '+' :: rest => rest
      | l => l
    if ds = [] then .error "invalid digit found in string"
    else if ds.all (fun c => 48 ≤ c.toNat && c.toNat ≤ 57) then
      if valOfChars ds ≤ 18446744073709551615 then .ok (valOfChars ds)
      else .error "number too large to fit in target type"
    else .error "invalid digit found in string"

/-- `T = u64`: `FromStr` as above; native deserialization accepts exactly
integer literals in the `u64` range (serde_json rejects all other shapes). -/
def u64Impl : TImpl Nat :=
  { fromStr := u64FromStr
  , deserializeNative := fun v =>
      match v with
      | .int n => if 0 ≤ n ∧ n ≤ 18446744073709551615 then some n.toNat else none
      | _ => none }

/-- A second instance with the very same `fromStr` as `u64Impl` but a native
deserialization that rejects every shape (as a `FromStr`-only wrapper type
would). -/
def u64StrOnlyImpl : TImpl Nat :=
  { fromStr := u64FromStr
  , deserializeNative := fun _ => none }

/-- A target type whose NATIVE deserialization also accepts text, and maps it
differently from its `FromStr` (as `serde_json::Value` does: natively a JSON
string stays a string node, while `FromStr` parses it as a JSON document).
Here: `FromStr` parses decimal digits, while the native path sends every text
value to the marker 99. -/
def textAmbivalentImpl : TImpl Nat :=
  { fromStr := u64FromStr
  , deserializeNative := fun v =>
      match v with
      | .str _ => some 99
      | .int n => if 0 ≤ n ∧ n ≤ 18446744073709551615 then some n.toNat else none
      | _ => none }

/-! ### Lemmas about the decimal rendering -/

lemma valOfDigits_append (l : List Nat) (d : Nat) :
    valOfDigits (l ++ [d]) = 10 * valOfDigits l + d := by
  simp [valOfDigits, List.foldl_append]

lemma decDigitsAux_val (fuel n : Nat) (h : n < fuel) :
    valOfDigits (decDigitsAux fuel n) = n := by
  induction fuel generalizing n with
  | zero => omega
  | succ fuel ih =>
    simp only [decDigitsAux]
    rcases Nat.lt_or_ge n 10 with h10 | h10
    · rw [if_pos h10]
      simp [valOfDigits]
    · rw [if_neg (by omega), valOfDigits_append, ih (n / 10) (by omega)]
      omega

lemma decDigitsAux_lt_ten (fuel n : Nat) : ∀ d ∈ decDigitsAux fuel n, d < 10 := by
  induction fuel generalizing n with
  | zero => simp [decDigitsAux]
  | succ fuel ih =>
    simp only [decDigitsAux]
    rcases Nat.lt_or_ge n 10 with h10 | h10
    · rw [if_pos h10]
      intro d hd
      simp at hd
      omega
    · rw [if_neg (by omega)]
      intro d hd
      rcases List.mem_append.mp hd with h | h
      · exact ih (n / 10) d h
      · simp at h
        omega

lemma decDigitsAux_ne_nil (fuel n : Nat) (h : n < fuel) : decDigitsAux fuel n ≠ [] := by
  cases fuel with
  | zero => omega
  | succ fuel =>
    simp only [decDigitsAux]
    rcases Nat.lt_or_ge n 10 with h10 | h10
    · rw [if_pos h10]
      simp
    · rw [if_neg (by omega)]
      simp

lemma decDigitsAux_head (fuel n : Nat) (h : n < fuel) :
    ∃ d, d < 10 ∧ (n ≠ 0 → d ≠ 0) ∧ (decDigitsAux fuel n).head? = some d := by
  induction fuel generalizing n with
  | zero => omega
  | succ fuel ih =>
    simp only [decDigitsAux]
    rcases Nat.lt_or_ge n 10 with h10 | h10
    · rw [if_pos h10]
      exact ⟨n, h10, fun hn => hn, rfl⟩
    · rw [if_neg (by omega)]
      obtain ⟨d, hd10, hdz, hh⟩ := ih (n / 10) (by omega)
      refine ⟨d, hd10, fun _ => hdz (by omega), ?_⟩
      rcases hl : decDigitsAux fuel (n / 10) with _ | ⟨a, l⟩
      · rw [hl] at hh
        simp at hh
      · rw [hl] at hh
        simp at hh
        simp [hl, hh]

lemma digitCharOf_toNat (d : Nat) (h : d < 10) : (digitCharOf d).toNat = 48 + d := by
  interval_cases d <;> decide

lemma digitCharOf_ge (d : Nat) (h : d < 10) : '0' ≤ digitCharOf d := by
  interval_cases d <;> decide

lemma digitCharOf_le (d : Nat) (h : d < 10) : digitCharOf d ≤ '9' := by
  interval_cases d <;> decide

lemma digitCharOf_ne_zero_char (d : Nat) (h : d < 10) (h1 : 1 ≤ d) :
    digitCharOf d ≠ '0' := by
  interval_cases d <;> decide

lemma foldl_map_digitCharOf (l : List Nat) (hl : ∀ d ∈ l, d < 10) (a : Nat) :
    (l.map digitCharOf).foldl (fun a c => 10 * a + (c.toNat - 48)) a
      = l.foldl (fun a d => 10 * a + d) a := by
  induction l generalizing a with
  | nil => rfl
  | cons d l ih =>
    simp only [List.map_cons, List.foldl_cons]
    rw [digitCharOf_toNat d (hl d (by simp))]
    have h48 : 48 + d - 48 = d := by omega
    rw [h48]
    exact ih (fun x hx => hl x (by simp [hx])) _

lemma valOfChars_decDigits (n : Nat) : valOfChars (decDigits n) = n := by
  unfold valOfChars decDigits
  rw [foldl_map_digitCharOf _ (decDigitsAux_lt_ten _ _)]
  exact decDigitsAux_val (n + 1) n (by omega)

lemma decDigits_ne_nil (n : Nat) : decDigits n ≠ [] := by
  unfold decDigits
  simp [decDigitsAux_ne_nil (n + 1) n (by omega)]

lemma decDigits_mem (n : Nat) (c : Char) (hc : c ∈ decDigits n) :
    '0' ≤ c ∧ c ≤ '9' := by
  unfold decDigits at hc
  rcases List.mem_map.mp hc with ⟨d, hd, rfl⟩
  have h10 := decDigitsAux_lt_ten (n + 1) n d hd
  exact ⟨digitCharOf_ge d h10, digitCharOf_le d h10⟩

lemma decDigits_head (n : Nat) :
    ∃ d, d < 10 ∧ (n ≠ 0 → d ≠ 0) ∧ (decDigits n).head? = some (digitCharOf d) := by
  obtain ⟨d, hd10, hdz, hh⟩ := decDigitsAux_head (n + 1) n (by omega)
  refine ⟨d, hd10, hdz, ?_⟩
  unfold decDigits
  rw [List.head?_map, hh]
  rfl

lemma decDigits_zero : decDigits 0 = ['0'] := by decide

/-- The digit portion of a rendered integer: everything after the sign. -/
def decimalBody (n : Int) (s : String) : List Char :=
  if n < 0 then s.data.tail else s.data

/-! ### Claims -/

/-- C4: for every text input `s`, `deserialize_string_from_number` returns
`Ok(s)` unchanged — any text is accepted, with no validation that it looks
like a number. -/
theorem c4_text_identity (s : String) :
    deserialize_string_from_number (JsonValue.str s) = Except.ok s := rfl

/-- C3: for every integer input `n` in the `i64` range,
`deserialize_string_from_number` returns `Ok` of the canonical base-10 text of
`n`: a leading `-` exactly when `n` is negative, never a leading `+`, a
nonempty all-digit body with no leading zero (except for `0` itself, rendered
`"0"`), whose numeric value is `|n|`. -/
theorem c3_int_to_decimal (n : Int) (h1 : i64Min ≤ n) (h2 : n ≤ i64Max) :
    deserialize_string_from_number (JsonValue.int n) = Except.ok (i64_to_string n) ∧
    ((i64_to_string n).data.head? = some '-' ↔ n < 0) ∧
    (i64_to_string n).data.head? ≠ some '+' ∧
    decimalBody n (i64_to_string n) ≠ [] ∧
    (∀ c ∈ decimalBody n (i64_to_string n), '0' ≤ c ∧ c ≤ '9') ∧
    (n ≠ 0 → (decimalBody n (i64_to_string n)).head? ≠ some '0') ∧
    (n = 0 → decimalBody n (i64_to_string n) = ['0']) ∧
    valOfChars (decimalBody n (i64_to_string n)) = n.natAbs := by
  have hsj : string_from_json (JsonValue.int n) = none := rfl
  have hij : i64_from_json (JsonValue.int n) = some n := by
    simp only [i64_from_json]
    rw [if_pos ⟨h1, h2⟩]
  have hmain : deserialize_string_from_number (JsonValue.int n)
      = Except.ok (i64_to_string n) := by
    unfold deserialize_string_from_number StringOrInt_deserialize
    rw [hsj, hij]
  obtain ⟨d, hd10, hdz, hh⟩ := decDigits_head n.natAbs
  rcases Int.lt_or_le n 0 with hneg | hpos
  · have hs : i64_to_string n = String.mk ('-' :: decDigits n.natAbs) := by
      unfold i64_to_string
      rw [if_pos hneg]
    have hbody : decimalBody n (i64_to_string n) = decDigits n.natAbs := by
      unfold decimalBody
      rw [if_pos hneg, hs]
      rfl
    have hnz : n.natAbs ≠ 0 := by omega
    refine ⟨hmain, ?_, ?_, ?_, ?_, ?_, ?_, ?_⟩
    · rw [hs]
      exact ⟨fun _ => hneg, fun _ => rfl⟩
    · rw [hs]
      simp
    · rw [hbody]
      exact decDigits_ne_nil _
    · rw [hbody]
      exact decDigits_mem _
    · intro _
      rw [hbody, hh]
      intro hc
      have hc0 : digitCharOf d = '0' := by simpa using hc
      have hd1 : d ≠ 0 := hdz hnz
      exact digitCharOf_ne_zero_char d hd10 (by omega) hc0
    · intro h0
      omega
    · rw [hbody]
      exact valOfChars_decDigits _
  · have hs : i64_to_string n = String.mk (decDigits n.natAbs) := by
      unfold i64_to_string
      rw [if_neg (by omega)]
    have hbody : decimalBody n (i64_to_string n) = decDigits n.natAbs := by
      unfold decimalBody
      rw [if_neg (by omega), hs]
    have hdge : '0' ≤ digitCharOf d := digitCharOf_ge d hd10
    refine ⟨hmain, ?_, ?_, ?_, ?_, ?_, ?_, ?_⟩
    · rw [hs]
      constructor
      · intro hc
        have hc2 : (decDigits n.natAbs).head? = some '-' := hc
        rw [hh] at hc2
        have hdd : digitCharOf d = '-' := by simpa using hc2
        rw [hdd] at hdge
        exact absurd hdge (by decide)
      · intro hc
        omega
    · rw [hs]
      show (decDigits n.natAbs).head? ≠ some '+'
      rw [hh]
      intro hc
      have hdd : digitCharOf d = '+' := by simpa using hc
      rw [hdd] at hdge
      exact absurd hdge (by decide)
    · rw [hbody]
      exact decDigits_ne_nil _
    · rw [hbody]
      exact decDigits_mem _
    · intro hn0
      rw [hbody, hh]
      intro hc
      have hc0 : digitCharOf d = '0' := by simpa using hc
      have hd1 : d ≠ 0 := hdz (by omega)
      exact digitCharOf_ne_zero_char d hd10 (by omega) hc0
    · intro h0
      rw [hbody]
      have hab : n.natAbs = 0 := by omega
      rw [hab, decDigits_zero]
    · rw [hbody]
      exact valOfChars_decDigits _

/-- Witness for C3 at the spec's own example `n = -13`. -/
theorem c3_int_to_decimal_witness :
    i64Min ≤ (-13 : Int) ∧ (-13 : Int) ≤ i64Max ∧
    deserialize_string_from_number (JsonValue.int (-13)) =
      Except.ok (i64_to_string (-13)) ∧ i64_to_string (-13) = "-13" :=
  ⟨by decide, by decide, (c3_int_to_decimal (-13) (by decide) (by decide)).1, by decide⟩

/-- C6: an input to `deserialize_string_from_number` whose shape is neither
text nor an in-range signed 64-bit integer fails with the structural-mismatch
error; no value is produced. -/
theorem c6_string_from_number_mismatch (v : JsonValue)
    (hs : string_from_json v = none) (hi : i64_from_json v = none) :
    deserialize_string_from_number v = Except.error DeError.structuralMismatch := by
  unfold deserialize_string_from_number StringOrInt_deserialize
  rw [hs, hi]

/-- Witness for C6 at a boolean input. -/
theorem c6_string_from_number_mismatch_witness :
    string_from_json (JsonValue.bool true) = none ∧
    deserialize_string_from_number (JsonValue.bool true) =
      Except.error DeError.structuralMismatch :=
  ⟨rfl, c6_string_from_number_mismatch (JsonValue.bool true) rfl rfl⟩

/-- C10: a non-negative integer input exceeding `i64::MAX` (while still
representable as a wire integer, i.e. at most `u64::MAX`) makes
`deserialize_string_from_number` fail with the structural-mismatch error
instead of producing decimal text. -/
theorem c10_huge_int_mismatch (n : Int) (h1 : i64Max < n)
    (h2 : n ≤ 18446744073709551615) :
    deserialize_string_from_number (JsonValue.int n) =
      Except.error DeError.structuralMismatch := by
  have hsj : string_from_json (JsonValue.int n) = none := rfl
  have hij : i64_from_json (JsonValue.int n) = none := by
    simp only [i64_from_json]
    rw [if_neg (by simp only [i64Min, i64Max] at h1 ⊢; omega)]
  unfold deserialize_string_from_number StringOrInt_deserialize
  rw [hsj, hij]

/-- Witness for C10 at `n = 2^63`, the first integer past `i64::MAX`. -/
theorem c10_huge_int_mismatch_witness :
    i64Max < (9223372036854775808 : Int) ∧
    deserialize_string_from_number (JsonValue.int 9223372036854775808) =
      Except.error DeError.structuralMismatch :=
  ⟨by decide, c10_huge_int_mismatch 9223372036854775808 (by decide) (by decide)⟩

/-- Equality of `Except` results is decidable when both components' are; this
lets concrete runs of the two functions be checked by evaluation. -/
instance {e a : Type} [DecidableEq e] [DecidableEq a] : DecidableEq (Except e a)
  | .error x, .error y =>
    if h : x = y then .isTrue (h ▸ rfl) else .isFalse (fun hh => h (by injection hh))
  | .error _, .ok _ => .isFalse (fun hh => Except.noConfusion hh)
  | .ok _, .error _ => .isFalse (fun hh => Except.noConfusion hh)
  | .ok x, .ok y =>
    if h : x = y then .isTrue (h ▸ rfl) else .isFalse (fun hh => h (by injection hh))

/-- C1: a text input whose `T::from_str` parse succeeds makes
`deserialize_number_from_string` return exactly the parsed value. -/
theorem c1_text_parse_ok {α : Type} (T : TImpl α) (s : String) (v : α)
    (h : T.fromStr s = Except.ok v) :
    deserialize_number_from_string T (JsonValue.str s) = Except.ok v := by
  have hsj : string_from_json (JsonValue.str s) = some s := rfl
  unfold deserialize_number_from_string StringOrIntT_deserialize
  rw [hsj]
  show (match T.fromStr s with
        | Except.ok t => Except.ok t
        | Except.error e => Except.error (DeError.custom e)) = Except.ok v
  rw [h]

/-- Witness for C1 with `T = u64` at the spec's example `"123"`. -/
theorem c1_text_parse_ok_witness :
    u64Impl.fromStr "123" = Except.ok 123 ∧
    deserialize_number_from_string u64Impl (JsonValue.str "123") = Except.ok 123 :=
  ⟨by decide, c1_text_parse_ok u64Impl "123" 123 (by decide)⟩

/-- C5: a text input whose `T::from_str` parse fails with rendered message `e`
makes `deserialize_number_from_string` fail with `Error::custom(e)` — the
parser's description propagated verbatim. -/
theorem c5_text_parse_err {α : Type} (T : TImpl α) (s : String) (e : String)
    (h : T.fromStr s = Except.error e) :
    deserialize_number_from_string T (JsonValue.str s)
      = Except.error (DeError.custom e) := by
  have hsj : string_from_json (JsonValue.str s) = some s := rfl
  unfold deserialize_number_from_string StringOrIntT_deserialize
  rw [hsj]
  show (match T.fromStr s with
        | Except.ok t => Except.ok t
        | Except.error e => Except.error (DeError.custom e))
      = Except.error (DeError.custom e)
  rw [h]

/-- Witness for C5 with `T = u64` at the non-numeric text `"foo"`. -/
theorem c5_text_parse_err_witness :
    u64Impl.fromStr "foo" = Except.error "invalid digit found in string" ∧
    deserialize_number_from_string u64Impl (JsonValue.str "foo")
      = Except.error (DeError.custom "invalid digit found in string") :=
  ⟨by decide, c5_text_parse_err u64Impl "foo" "invalid digit found in string" (by decide)⟩

/-- C7: an input to `deserialize_number_from_string` that is not text and that
`T`'s native deserialization rejects fails with the structural-mismatch error;
no value is produced. -/
theorem c7_no_shape_mismatch {α : Type} (T : TImpl α) (v : JsonValue)
    (hs : string_from_json v = none) (hn : T.deserializeNative v = none) :
    deserialize_number_from_string T v = Except.error DeError.structuralMismatch := by
  unfold deserialize_number_from_string StringOrIntT_deserialize
  rw [hs, hn]

/-- Witness for C7 with `T = u64` at a boolean input. -/
theorem c7_no_shape_mismatch_witness :
    string_from_json (JsonValue.bool true) = none ∧
    u64Impl.deserializeNative (JsonValue.bool true) = none ∧
    deserialize_number_from_string u64Impl (JsonValue.bool true)
      = Except.error DeError.structuralMismatch :=
  ⟨rfl, rfl, c7_no_shape_mismatch u64Impl (JsonValue.bool true) rfl rfl⟩

/-- Counterexample to C2 as stated: for a target type whose NATIVE
deserialization also accepts text (as `serde_json::Value` does), a text input
is a native-accepted value, yet the function returns the `FromStr` result, not
the natively deserialized one.  Here the native path sends `"7"` to `99`,
while the function returns `Ok 7`. -/
theorem c2_counterexample :
    textAmbivalentImpl.deserializeNative (JsonValue.str "7") = some 99 ∧
    deserialize_number_from_string textAmbivalentImpl (JsonValue.str "7")
      = Except.ok 7 ∧
    (Except.ok 7 : Except DeError Nat) ≠ Except.ok 99 :=
  ⟨rfl, by decide, by decide⟩

/-- C2 (amended): for every NON-TEXT input accepted by `T`'s native
deserialization, `deserialize_number_from_string` returns the natively
deserialized value unchanged, with no further validation. -/
theorem c2_native_identity {α : Type} (T : TImpl α) (v : JsonValue) (t : α)
    (hs : string_from_json v = none) (hn : T.deserializeNative v = some t) :
    deserialize_number_from_string T v = Except.ok t := by
  unfold deserialize_number_from_string StringOrIntT_deserialize
  rw [hs, hn]

/-- Witness for the amended C2 with `T = u64` at the integer input `444`. -/
theorem c2_native_identity_witness :
    u64Impl.deserializeNative (JsonValue.int 444) = some 444 ∧
    deserialize_number_from_string u64Impl (JsonValue.int 444) = Except.ok 444 :=
  ⟨by decide, c2_native_identity u64Impl (JsonValue.int 444) 444 rfl (by decide)⟩

/-- C8: on every text-shaped input the result of
`deserialize_number_from_string` is determined solely by `T`'s text-parsing
rule — two target types with the same `FromStr` but different native
deserializations agree, and the result is exactly the `FromStr` outcome (so
the native path is never consulted for text). -/
theorem c8_text_first {α : Type} (T U : TImpl α) (s : String)
    (h : T.fromStr = U.fromStr) :
    deserialize_number_from_string T (JsonValue.str s)
      = deserialize_number_from_string U (JsonValue.str s) ∧
    deserialize_number_from_string T (JsonValue.str s)
      = (match T.fromStr s with
         | Except.ok t => Except.ok t
         | Except.error e => Except.error (DeError.custom e)) := by
  have h2 : ∀ (V : TImpl α),
      deserialize_number_from_string V (JsonValue.str s)
        = (match V.fromStr s with
           | Except.ok t => Except.ok t
           | Except.error e => Except.error (DeError.custom e)) := by
    intro V
    have hsj : string_from_json (JsonValue.str s) = some s := rfl
    unfold deserialize_number_from_string StringOrIntT_deserialize
    rw [hsj]
  exact ⟨by rw [h2 T, h2 U, h], h2 T⟩

/-- Witness for C8: `u64` with and without its native path agree on `"42"`. -/
theorem c8_text_first_witness :
    u64Impl.fromStr = u64StrOnlyImpl.fromStr ∧
    deserialize_number_from_string u64Impl (JsonValue.str "42")
      = deserialize_number_from_string u64StrOnlyImpl (JsonValue.str "42") :=
  ⟨rfl, (c8_text_first u64Impl u64StrOnlyImpl "42" rfl).1⟩

/-- Counterexample to C9 as stated: with a target type whose native
deserialization also accepts text, a text-shaped input IS ambiguous between
the two variants, and the classification order changes the outcome: text-first
yields the `FromStr` result `Ok 5`, native-first yields `Ok 99`. -/
theorem c9_counterexample :
    deserialize_number_from_string textAmbivalentImpl (JsonValue.str "5")
      = Except.ok 5 ∧
    deserialize_number_from_string_swapped textAmbivalentImpl (JsonValue.str "5")
      = Except.ok 99 ∧
    deserialize_number_from_string textAmbivalentImpl (JsonValue.str "5")
      ≠ deserialize_number_from_string_swapped textAmbivalentImpl (JsonValue.str "5") :=
  ⟨by decide, by decide, by decide⟩

lemma swap_agree_on_non_text {α : Type} (T : TImpl α) (v : JsonValue)
    (hsj : string_from_json v = none) :
    deserialize_number_from_string_swapped T v = deserialize_number_from_string T v := by
  unfold deserialize_number_from_string deserialize_number_from_string_swapped
    StringOrIntT_deserialize
  rw [hsj]
  rcases hn : T.deserializeNative v with _ | t <;> rfl

/-- C9 (amended): whenever `T`'s native deserialization rejects every
text-shaped value — as every numeric `T` does, text and number being mutually
exclusive wire shapes — the two classification orders yield the same result on
every input. -/
theorem c9_order_irrelevant {α : Type} (T : TImpl α)
    (hT : ∀ s, T.deserializeNative (JsonValue.str s) = none) (v : JsonValue) :
    deserialize_number_from_string_swapped T v = deserialize_number_from_string T v := by
  cases v with
  | str s =>
    have hsj : string_from_json (JsonValue.str s) = some s := rfl
    unfold deserialize_number_from_string deserialize_number_from_string_swapped
      StringOrIntT_deserialize
    rw [hT s, hsj]
  | null => exact swap_agree_on_non_text T JsonValue.null rfl
  | bool b => exact swap_agree_on_non_text T (JsonValue.bool b) rfl
  | int n => exact swap_agree_on_non_text T (JsonValue.int n) rfl
  | float q => exact swap_agree_on_non_text T (JsonValue.float q) rfl
  | arr l => exact swap_agree_on_non_text T (JsonValue.arr l) rfl
  | obj l => exact swap_agree_on_non_text T (JsonValue.obj l) rfl

/-- Witness for the amended C9 with `T = u64` at a text input. -/
theorem c9_order_irrelevant_witness :
    deserialize_number_from_string_swapped u64Impl (JsonValue.str "7")
      = deserialize_number_from_string u64Impl (JsonValue.str "7") :=
  c9_order_irrelevant u64Impl (fun _ => rfl) (JsonValue.str "7")
